import Mathlib

/-!
Verification of the session/state engine of a chat-based number-guessing
game (`src/lib.rs`).  The embedding models the in-memory `HashMap`s as
association lists with insert-or-replace semantics, the persisted JSON
snapshot files as optional JSON values (a `none` file is a missing or
unreadable file), and the random target of a new game as an explicit
parameter of the operation that draws it.
-/

namespace GuessBot

/-- Association-list lookup, modelling `HashMap::get`. -/
def alookup {K V : Type} [DecidableEq K] (k : K) : List (K × V) → Option V
  | [] => none
  | (k', v) :: rest => if k' = k then some v else alookup k rest

/-- Association-list insert-or-replace, modelling `HashMap::insert`. -/
def ainsert {K V : Type} [DecidableEq K] (k : K) (v : V) : List (K × V) → List (K × V)
  | [] => [(k, v)]
  | (k', v') :: rest => if k' = k then (k, v) :: rest else (k', v') :: ainsert k v rest

theorem alookup_ainsert {K V : Type} [DecidableEq K] (k k' : K) (v : V) (l : List (K × V)) :
    alookup k' (ainsert k v l) = if k = k' then some v else alookup k' l := by
  induction l with
  | nil => simp [ainsert, alookup]
  | cons hd tl ih =>
    obtain ⟨k2, v2⟩ := hd
    by_cases h1 : k2 = k
    · subst h1
      by_cases h2 : k2 = k'
      · subst h2
        simp [ainsert, alookup]
      · simp [ainsert, alookup, h2]
    · by_cases h2 : k2 = k'
      · subst h2
        have hkk : ¬ (k = k2) := fun h => h1 h.symm
        simp [ainsert, alookup, h1, hkk]
      · simp [ainsert, alookup, h1, h2, ih]

theorem alookup_ainsert_self {K V : Type} [DecidableEq K] (k : K) (v : V) (l : List (K × V)) :
    alookup k (ainsert k v l) = some v := by
  simp [alookup_ainsert]

theorem alookup_ainsert_ne {K V : Type} [DecidableEq K] {k k' : K} (v : V) (l : List (K × V))
    (h : ¬ (k = k')) : alookup k' (ainsert k v l) = alookup k' l := by
  simp [alookup_ainsert, h]

/-! ## A model of the JSON data layer

The three adaptive maps are persisted with `serde_json` as pretty-printed
JSON objects.  We model a parsed JSON document as a `Json` value; the
string/whitespace layer of `serde_json` is abstracted away, a file on disk
is `Option Json` (`none` for a file that is missing or unreadable). -/

inductive Json : Type where
  | null : Json
  | bool (b : Bool) : Json
  | num (n : Int) : Json
  | str (s : String) : Json
  | arr (elems : List Json) : Json
  | obj (fields : List (String × Json)) : Json

/-- Lower bound of the `i32` range. -/
def i32Min : Int := -2147483648

/-- Upper bound of the `i32` range. -/
def i32Max : Int := 2147483647

/-- Upper bound of the `u64` range. -/
def u64Max : Int := 18446744073709551615

/-- Deserialize one JSON value as an `i32`, as `serde` does when the target
type is `HashMap<String, i32>`: only an integer in the `i32` range is
accepted. -/
def jsonToI32 : Json → Option Int
  | .num n => if i32Min ≤ n ∧ n ≤ i32Max then some n else none
  | _ => none

/-- Deserialize one JSON value as a `u64` (target type `HashMap<String, u64>`). -/
def jsonToU64 : Json → Option Nat
  | .num n => if 0 ≤ n ∧ n ≤ u64Max then some n.toNat else none
  | _ => none

/-- Deserialize the fields of a JSON object as `i32` entries; any failing
field makes the whole parse fail, as with `serde_json::from_str`. -/
def jsonFieldsToI32 : List (String × Json) → Option (List (String × Int))
  | [] => some []
  | (k, j) :: rest =>
    match jsonToI32 j, jsonFieldsToI32 rest with
    | some n, some m => some ((k, n) :: m)
    | _, _ => none

/-- Deserialize the fields of a JSON object as `u64` entries. -/
def jsonFieldsToU64 : List (String × Json) → Option (List (String × Nat))
  | [] => some []
  | (k, j) :: rest =>
    match jsonToU64 j, jsonFieldsToU64 rest with
    | some n, some m => some ((k, n) :: m)
    | _, _ => none

/-- Parse a JSON document as a `HashMap<String, i32>`: it must be an object
whose every field value is an integer in the `i32` range. -/
def jsonToI32Map : Json → Option (List (String × Int))
  | .obj fields => jsonFieldsToI32 fields
  | _ => none

/-- Parse a JSON document as a `HashMap<String, u64>`. -/
def jsonToU64Map : Json → Option (List (String × Nat))
  | .obj fields => jsonFieldsToU64 fields
  | _ => none

/-- `load_seen_welcome`: a missing file or a parse failure yields the empty
map (`src/lib.rs` lines 169-180). -/
def load_seen_welcome (file : Option Json) : List (String × Nat) :=
  match file with
  | none => []
  | some j =>
    match jsonToU64Map j with
    | some m => m
    | none => []

/-- `save_seen_welcome`: serialize the map as a JSON object
(`src/lib.rs` lines 183-190). -/
def save_seen_welcome (m : List (String × Nat)) : Json :=
  Json.obj (m.map fun p => (p.1, Json.num (Int.ofNat p.2)))

/-- `load_user_start_attempts` (`src/lib.rs` lines 193-204). -/
def load_user_start_attempts (file : Option Json) : List (String × Int) :=
  match file with
  | none => []
  | some j =>
    match jsonToI32Map j with
    | some m => m
    | none => []

/-- `save_user_start_attempts` (`src/lib.rs` lines 207-214). -/
def save_user_start_attempts (m : List (String × Int)) : Json :=
  Json.obj (m.map fun p => (p.1, Json.num p.2))

/-- `load_user_miss_streaks` (`src/lib.rs` lines 217-228). -/
def load_user_miss_streaks (file : Option Json) : List (String × Int) :=
  match file with
  | none => []
  | some j =>
    match jsonToI32Map j with
    | some m => m
    | none => []

/-- `save_user_miss_streaks` (`src/lib.rs` lines 231-238). -/
def save_user_miss_streaks (m : List (String × Int)) : Json :=
  Json.obj (m.map fun p => (p.1, Json.num p.2))

theorem jsonFieldsToI32_roundtrip (m : List (String × Int))
    (h : ∀ p ∈ m, i32Min ≤ p.2 ∧ p.2 ≤ i32Max) :
    jsonFieldsToI32 (m.map fun p => (p.1, Json.num p.2)) = some m := by
  induction m with
  | nil => rfl
  | cons hd tl ih =>
    obtain ⟨k, v⟩ := hd
    have hv : i32Min ≤ v ∧ v ≤ i32Max := h (k, v) (List.mem_cons_self _ _)
    have htl : ∀ p ∈ tl, i32Min ≤ p.2 ∧ p.2 ≤ i32Max := fun p hp => h p (List.mem_cons_of_mem _ hp)
    simp only [List.map_cons, jsonFieldsToI32, jsonToI32, if_pos hv, ih htl]

theorem jsonFieldsToU64_roundtrip (m : List (String × Nat))
    (h : ∀ p ∈ m, (p.2 : Int) ≤ u64Max) :
    jsonFieldsToU64 (m.map fun p => (p.1, Json.num (Int.ofNat p.2))) = some m := by
  induction m with
  | nil => rfl
  | cons hd tl ih =>
    obtain ⟨k, v⟩ := hd
    have hv : (0 : Int) ≤ Int.ofNat v ∧ (Int.ofNat v : Int) ≤ u64Max := by
      constructor
      · exact Int.ofNat_nonneg v
      · exact h (k, v) (List.mem_cons_self _ _)
    have htl : ∀ p ∈ tl, (p.2 : Int) ≤ u64Max := fun p hp => h p (List.mem_cons_of_mem _ hp)
    simp only [List.map_cons, jsonFieldsToU64, jsonToU64, if_pos hv, ih htl]
    rfl

/-! ## The game data model -/

/-- Supported languages (`enum Lang`). -/
inductive Lang : Type where
  | en : Lang
  | it : Lang
  | ar : Lang
  | ru : Lang
  | zh : Lang
deriving DecidableEq, Repr

/-- State of a single game for a user in a chat (`struct GameState`).
`i64`/`i32` integers are modelled as `Int`; overflow cannot occur on the
paths the theorems take (attempt counts only decrease towards the floor 1
or are reset to the configured default). -/
structure GameState : Type where
  target : Int
  attempts_left : Int
  start_attempts : Int
deriving DecidableEq, Repr

/-- The in-memory shared application state (`struct AppState`).  `chat_id`
is an `i64` (modelled `Int`), `user_id` a `u64` (modelled `Nat`). -/
structure AppState : Type where
  by_user : List ((Int × Nat) × GameState)
  user_langs : List ((Int × Nat) × Lang)
  chat_langs : List (Int × Lang)
  seen_welcome : List (String × Nat)
  user_start_attempts : List (String × Int)
  user_miss_streaks : List (String × Int)
deriving DecidableEq, Repr

/-- The runtime configuration fields the session engine reads
(`struct Config`; the message templates are rendering-only and omitted). -/
structure Config : Type where
  min : Int
  max : Int
  attempts : Int
  restart_threshold : Int
  ttl_seconds : Nat
  bot_owner_id : Option Nat
  reset_user_starts : List String
deriving DecidableEq, Repr

/-- The application state together with the three persisted snapshot files
(`data/user_start_attempts.json`, `data/user_miss_streaks.json`,
`data/seen_welcome.json`). -/
structure World : Type where
  app : AppState
  startsFile : Option Json
  streaksFile : Option Json
  welcomeFile : Option Json

/-- The canonical composite key `format!("\x7b\x7d:\x7b\x7d", chat_id, user_id)`. -/
def compositeKey (chat_id : Int) (user_id : Nat) : String :=
  toString chat_id ++ ":" ++ toString user_id

/-- `next_attempts_after_win` (`src/lib.rs` lines 286-292):
`std::cmp::max(1, previous_start_attempts - 1)`; the remaining-attempts and
threshold arguments are ignored (they are `_`-prefixed in the source). -/
def next_attempts_after_win (previous_start_attempts : Int)
    (_remaining_after_guess : Int) (_restart_threshold : Int) : Int :=
  max 1 (previous_start_attempts - 1)

/-- `i32::saturating_sub(self, 1)`: ordinary subtraction clamped at `i32Min`. -/
def saturatingSubOne (a : Int) : Int :=
  max (a - 1) i32Min

/-- The structured outcome the dispatch layer renders into a localized
message.  Each constructor corresponds to one reply branch of
`handle_message`: `gameStarted` ↔ `game_started`, `tooLow` ↔ `too_low`,
`tooHigh` ↔ `too_high`, `won` ↔ `success_correct`,
`exhaustedNoOp` ↔ `no_attempts` (the zero-attempts guard),
`exhausted` ↔ `revealed`, `noActiveSession` ↔ `not_started_prompt`,
`notAuthorized` ↔ the "Not authorized." reply, `resetStartsOk` ↔
`reset_starts_ok`. -/
inductive Outcome : Type where
  | gameStarted (attempts : Int) : Outcome
  | tooLow (remaining : Int) : Outcome
  | tooHigh (remaining : Int) : Outcome
  | won (next_attempts : Int) (threshold : Int) : Outcome
  | exhaustedNoOp : Outcome
  | exhausted (target : Int) (remaining_before_reset : Int) : Outcome
  | noActiveSession : Outcome
  | notAuthorized : Outcome
  | resetStartsOk : Outcome
deriving DecidableEq, Repr

/-- The `/gioco` branch of `handle_message` (`src/lib.rs` lines 408-448):
look up the persisted start attempts (default `config.attempts`), install a
brand-new game with a freshly drawn target (`newTarget` stands for the
`rand_in_range(config.min, config.max)` draw), re-persist the
`user_start_attempts` map. -/
def start_session (cfg : Config) (chat_id : Int) (user_id : Nat) (newTarget : Int)
    (w : World) : GameState × World :=
  let key : Int × Nat := (chat_id, user_id)
  let composite := compositeKey chat_id user_id
  let start_attempts := (alookup composite w.app.user_start_attempts).getD cfg.attempts
  let new_game : GameState :=
    { target := newTarget, attempts_left := start_attempts, start_attempts := start_attempts }
  let starts := ainsert composite start_attempts w.app.user_start_attempts
  let app1 := { w.app with
                by_user := ainsert key new_game w.app.by_user
                user_start_attempts := starts }
  (new_game,
    { app := app1
      startsFile := some (save_user_start_attempts starts)
      streaksFile := w.streaksFile
      welcomeFile := w.welcomeFile })

/-- The numeric-guess branch of `handle_message` (`src/lib.rs` lines
543-679).  `newTarget` stands for the random draw performed in the win
branch.  The Rust code removes the game from the map and reinserts it on
every path; the net effect on the map is what is modelled. -/
def submit_guess (cfg : Config) (chat_id : Int) (user_id : Nat) (guess : Int)
    (newTarget : Int) (w : World) : Outcome × World :=
  let key : Int × Nat := (chat_id, user_id)
  match alookup key w.app.by_user with
  | none => (Outcome.noActiveSession, w)
  | some game =>
    if game.attempts_left = 0 then
      (Outcome.exhaustedNoOp, w)
    else
      let attempts_left := saturatingSubOne game.attempts_left
      if guess = game.target then
        let next_attempts :=
          next_attempts_after_win game.start_attempts attempts_left cfg.restart_threshold
        let new_game : GameState :=
          { target := newTarget, attempts_left := next_attempts,
            start_attempts := next_attempts }
        let composite := compositeKey chat_id user_id
        let streaks := ainsert composite 0 w.app.user_miss_streaks
        let starts := ainsert composite next_attempts w.app.user_start_attempts
        let app1 := { w.app with
                      by_user := ainsert key new_game w.app.by_user
                      user_miss_streaks := streaks
                      user_start_attempts := starts }
        (Outcome.won next_attempts cfg.restart_threshold,
          { app := app1
            startsFile := some (save_user_start_attempts starts)
            streaksFile := some (save_user_miss_streaks streaks)
            welcomeFile := w.welcomeFile })
      else if attempts_left = 0 then
        let composite := compositeKey chat_id user_id
        let streak := (alookup composite w.app.user_miss_streaks).getD 0 + 1
        let streaks1 := ainsert composite streak w.app.user_miss_streaks
        let starts :=
          if cfg.restart_threshold ≤ streak then
            ainsert composite cfg.attempts w.app.user_start_attempts
          else
            w.app.user_start_attempts
        let streaks :=
          if cfg.restart_threshold ≤ streak then ainsert composite 0 streaks1 else streaks1
        let game1 : GameState := { game with attempts_left := attempts_left }
        let remaining_before_reset :=
          if cfg.restart_threshold ≤ streak then 0 else cfg.restart_threshold - streak
        let app1 := { w.app with
                      by_user := ainsert key game1 w.app.by_user
                      user_miss_streaks := streaks
                      user_start_attempts := starts }
        (Outcome.exhausted game.target remaining_before_reset,
          { app := app1
            startsFile := some (save_user_start_attempts starts)
            streaksFile := some (save_user_miss_streaks streaks)
            welcomeFile := w.welcomeFile })
      else if guess < game.target then
        let app1 := { w.app with
                      by_user := ainsert key { game with attempts_left := attempts_left } w.app.by_user }
        (Outcome.tooLow attempts_left, { w with app := app1 })
      else
        let app1 := { w.app with
                      by_user := ainsert key { game with attempts_left := attempts_left } w.app.by_user }
        (Outcome.tooHigh attempts_left, { w with app := app1 })

/-- Authorization check of the `/reset_starts` branch (`src/lib.rs` lines
382-389): the sender must exist and be the configured owner or have its
composite key in the configured allow-list. -/
def resetAllowed (cfg : Config) (chat_id : Int) (fromUser : Option Nat) : Bool :=
  match fromUser with
  | some uid =>
    (match cfg.bot_owner_id with
     | some o => uid == o
     | none => false)
    || cfg.reset_user_starts.contains (compositeKey chat_id uid)
  | none => false

/-- The `/reset_starts` branch of `handle_message` (`src/lib.rs` lines
379-402): an authorized caller clears `user_start_attempts` wholesale and
persists the empty map, anyone else gets `notAuthorized` with no mutation. -/
def reset_all_start_attempts (cfg : Config) (chat_id : Int) (fromUser : Option Nat)
    (w : World) : Outcome × World :=
  if resetAllowed cfg chat_id fromUser then
    let app1 := { w.app with user_start_attempts := ([] : List (String × Int)) }
    (Outcome.resetStartsOk,
      { w with
        app := app1
        startsFile := some (save_user_start_attempts []) })
  else
    (Outcome.notAuthorized, w)

/-- One inbound event against the session store. -/
inductive Op : Type where
  | start (chat_id : Int) (user_id : Nat) (newTarget : Int) : Op
  | guess (chat_id : Int) (user_id : Nat) (value : Int) (newTarget : Int) : Op
  | reset (chat_id : Int) (fromUser : Option Nat) : Op

/-- The state transition of one inbound event. -/
def step (cfg : Config) (op : Op) (w : World) : World :=
  match op with
  | .start c u t => (start_session cfg c u t w).2
  | .guess c u v t => (submit_guess cfg c u v t w).2
  | .reset c f => (reset_all_start_attempts cfg c f w).2

/-- Worlds reachable from `w0` by any finite sequence of events. -/
inductive Reachable (cfg : Config) (w0 : World) : World → Prop where
  | refl : Reachable cfg w0 w0
  | tail {w : World} (op : Op) : Reachable cfg w0 w → Reachable cfg w0 (step cfg op w)

/-! ## The attempts invariant -/

/-- Every persisted starting budget is at least 1 (the spec's persisted-state
contract for `data/user_start_attempts.json`: positive integers). -/
def startsOK (m : List (String × Int)) : Prop :=
  ∀ k v, alookup k m = some v → 1 ≤ v

/-- Every stored session satisfies `0 ≤ attempts_left ≤ start_attempts`. -/
def sessionsOK (m : List ((Int × Nat) × GameState)) : Prop :=
  ∀ k g, alookup k m = some g → 0 ≤ g.attempts_left ∧ g.attempts_left ≤ g.start_attempts

/-- The inductive invariant of the session store. -/
def Inv (w : World) : Prop :=
  startsOK w.app.user_start_attempts ∧ sessionsOK w.app.by_user

theorem startsOK_ainsert {m : List (String × Int)} {k : String} {v : Int}
    (hm : startsOK m) (hv : 1 ≤ v) : startsOK (ainsert k v m) := by
  intro k' v' h
  rw [alookup_ainsert] at h
  split at h
  · obtain rfl : v = v' := by simpa using h
    exact hv
  · exact hm k' v' h

theorem sessionsOK_ainsert {m : List ((Int × Nat) × GameState)} {k : Int × Nat} {g : GameState}
    (hm : sessionsOK m) (hg : 0 ≤ g.attempts_left ∧ g.attempts_left ≤ g.start_attempts) :
    sessionsOK (ainsert k g m) := by
  intro k' g' h
  rw [alookup_ainsert] at h
  split at h
  · obtain rfl : g = g' := by simpa using h
    exact hg
  · exact hm k' g' h

theorem saturatingSubOne_of_pos (a : Int) (h : 1 ≤ a) :
    saturatingSubOne a = a - 1 := by
  have hb : i32Min ≤ a - 1 := by unfold i32Min; omega
  unfold saturatingSubOne
  exact max_eq_left hb

theorem getD_pos {m : List (String × Int)} (hm : startsOK m) (k : String) {d : Int}
    (hd : 1 ≤ d) : 1 ≤ (alookup k m).getD d := by
  cases h : alookup k m with
  | none => simpa using hd
  | some v => simpa using hm k v h

/-! ### Branch equations for the operations -/

/-- The world produced by the `/gioco` branch. -/
def startWorld (cfg : Config) (chat_id : Int) (user_id : Nat) (newTarget : Int)
    (w : World) : World :=
  let start_attempts :=
    (alookup (compositeKey chat_id user_id) w.app.user_start_attempts).getD cfg.attempts
  let starts :=
    ainsert (compositeKey chat_id user_id) start_attempts w.app.user_start_attempts
  let app1 := { w.app with
                by_user := ainsert (chat_id, user_id)
                  (GameState.mk newTarget start_attempts start_attempts) w.app.by_user
                user_start_attempts := starts }
  { app := app1
    startsFile := some (save_user_start_attempts starts)
    streaksFile := w.streaksFile
    welcomeFile := w.welcomeFile }

/-- The world produced by the win branch of `submit_guess`. -/
def winWorld (cfg : Config) (chat_id : Int) (user_id : Nat) (newTarget : Int)
    (w : World) (game : GameState) : World :=
  let next_attempts := next_attempts_after_win game.start_attempts
    (saturatingSubOne game.attempts_left) cfg.restart_threshold
  let composite := compositeKey chat_id user_id
  let streaks := ainsert composite 0 w.app.user_miss_streaks
  let starts := ainsert composite next_attempts w.app.user_start_attempts
  let app1 := { w.app with
                by_user := ainsert (chat_id, user_id)
                  (GameState.mk newTarget next_attempts next_attempts) w.app.by_user
                user_miss_streaks := streaks
                user_start_attempts := starts }
  { app := app1
    startsFile := some (save_user_start_attempts starts)
    streaksFile := some (save_user_miss_streaks streaks)
    welcomeFile := w.welcomeFile }

/-- The incremented miss streak read by the exhaustion branch. -/
def bumpedStreak (chat_id : Int) (user_id : Nat) (w : World) : Int :=
  (alookup (compositeKey chat_id user_id) w.app.user_miss_streaks).getD 0 + 1

/-- The world produced by the exhaustion branch of `submit_guess`. -/
def exhaustWorld (cfg : Config) (chat_id : Int) (user_id : Nat)
    (w : World) (game : GameState) : World :=
  let composite := compositeKey chat_id user_id
  let streak := bumpedStreak chat_id user_id w
  let streaks1 := ainsert composite streak w.app.user_miss_streaks
  let starts :=
    if cfg.restart_threshold ≤ streak then
      ainsert composite cfg.attempts w.app.user_start_attempts
    else
      w.app.user_start_attempts
  let streaks :=
    if cfg.restart_threshold ≤ streak then ainsert composite 0 streaks1 else streaks1
  let app1 := { w.app with
                by_user := ainsert (chat_id, user_id)
                  (GameState.mk game.target (saturatingSubOne game.attempts_left)
                    game.start_attempts) w.app.by_user
                user_miss_streaks := streaks
                user_start_attempts := starts }
  { app := app1
    startsFile := some (save_user_start_attempts starts)
    streaksFile := some (save_user_miss_streaks streaks)
    welcomeFile := w.welcomeFile }

/-- The world produced by the too-low/too-high branches of `submit_guess`:
only the session's countdown changes. -/
def decWorld (chat_id : Int) (user_id : Nat) (w : World) (game : GameState) : World :=
  { w with app := { w.app with
      by_user := ainsert (chat_id, user_id)
        (GameState.mk game.target (saturatingSubOne game.attempts_left)
          game.start_attempts) w.app.by_user } }

theorem start_session_eq (cfg : Config) (c : Int) (u : Nat) (t : Int) (w : World) :
    start_session cfg c u t w =
      (GameState.mk t ((alookup (compositeKey c u) w.app.user_start_attempts).getD cfg.attempts)
        ((alookup (compositeKey c u) w.app.user_start_attempts).getD cfg.attempts),
       startWorld cfg c u t w) := rfl

theorem submit_guess_none_eq (cfg : Config) (c : Int) (u : Nat) (v t : Int) (w : World)
    (hg : alookup ((c, u) : Int × Nat) w.app.by_user = none) :
    submit_guess cfg c u v t w = (Outcome.noActiveSession, w) := by
  simp only [submit_guess, hg]

theorem submit_guess_zero_eq (cfg : Config) (c : Int) (u : Nat) (v t : Int) (w : World)
    (game : GameState) (hg : alookup ((c, u) : Int × Nat) w.app.by_user = some game)
    (h0 : game.attempts_left = 0) :
    submit_guess cfg c u v t w = (Outcome.exhaustedNoOp, w) := by
  simp only [submit_guess, hg, if_pos h0]

theorem submit_guess_win_eq (cfg : Config) (c : Int) (u : Nat) (v t : Int) (w : World)
    (game : GameState) (hg : alookup ((c, u) : Int × Nat) w.app.by_user = some game)
    (h0 : ¬ game.attempts_left = 0) (hv : v = game.target) :
    submit_guess cfg c u v t w =
      (Outcome.won (next_attempts_after_win game.start_attempts
          (saturatingSubOne game.attempts_left) cfg.restart_threshold) cfg.restart_threshold,
       winWorld cfg c u t w game) := by
  simp only [submit_guess, hg, if_neg h0, if_pos hv, winWorld]

theorem submit_guess_exhaust_eq (cfg : Config) (c : Int) (u : Nat) (v t : Int) (w : World)
    (game : GameState) (hg : alookup ((c, u) : Int × Nat) w.app.by_user = some game)
    (h0 : ¬ game.attempts_left = 0) (hv : ¬ v = game.target)
    (hz : saturatingSubOne game.attempts_left = 0) :
    submit_guess cfg c u v t w =
      (Outcome.exhausted game.target
        (if cfg.restart_threshold ≤ bumpedStreak c u w then 0
         else cfg.restart_threshold - bumpedStreak c u w),
       exhaustWorld cfg c u w game) := by
  simp only [submit_guess, hg, if_neg h0, if_neg hv, if_pos hz, exhaustWorld, bumpedStreak]

theorem submit_guess_low_eq (cfg : Config) (c : Int) (u : Nat) (v t : Int) (w : World)
    (game : GameState) (hg : alookup ((c, u) : Int × Nat) w.app.by_user = some game)
    (h0 : ¬ game.attempts_left = 0) (hv : ¬ v = game.target)
    (hz : ¬ saturatingSubOne game.attempts_left = 0) (hlow : v < game.target) :
    submit_guess cfg c u v t w =
      (Outcome.tooLow (saturatingSubOne game.attempts_left), decWorld c u w game) := by
  simp only [submit_guess, hg, if_neg h0, if_neg hv, if_neg hz, if_pos hlow, decWorld]

theorem submit_guess_high_eq (cfg : Config) (c : Int) (u : Nat) (v t : Int) (w : World)
    (game : GameState) (hg : alookup ((c, u) : Int × Nat) w.app.by_user = some game)
    (h0 : ¬ game.attempts_left = 0) (hv : ¬ v = game.target)
    (hz : ¬ saturatingSubOne game.attempts_left = 0) (hhigh : ¬ v < game.target) :
    submit_guess cfg c u v t w =
      (Outcome.tooHigh (saturatingSubOne game.attempts_left), decWorld c u w game) := by
  simp only [submit_guess, hg, if_neg h0, if_neg hv, if_neg hz, if_neg hhigh, decWorld]

theorem start_session_inv (cfg : Config) (hcfg : 1 ≤ cfg.attempts) (c : Int) (u : Nat)
    (t : Int) (w : World) (hw : Inv w) : Inv (start_session cfg c u t w).2 := by
  obtain ⟨hstarts, hsess⟩ := hw
  have hs : 1 ≤ (alookup (compositeKey c u) w.app.user_start_attempts).getD cfg.attempts :=
    getD_pos hstarts _ hcfg
  rw [start_session_eq]
  constructor
  · exact startsOK_ainsert hstarts hs
  · apply sessionsOK_ainsert hsess
    refine ⟨?_, le_refl _⟩
    show (0 : Int) ≤ (alookup (compositeKey c u) w.app.user_start_attempts).getD cfg.attempts
    omega

theorem submit_guess_inv (cfg : Config) (hcfg : 1 ≤ cfg.attempts) (c : Int) (u : Nat)
    (v t : Int) (w : World) (hw : Inv w) : Inv (submit_guess cfg c u v t w).2 := by
  obtain ⟨hstarts, hsess⟩ := hw
  cases hg : alookup ((c, u) : Int × Nat) w.app.by_user with
  | none =>
    rw [submit_guess_none_eq cfg c u v t w hg]
    exact ⟨hstarts, hsess⟩
  | some game =>
    have hgame := hsess _ game hg
    by_cases h0 : game.attempts_left = 0
    · rw [submit_guess_zero_eq cfg c u v t w game hg h0]
      exact ⟨hstarts, hsess⟩
    · have h1 : 1 ≤ game.attempts_left := by omega
      have hsat : saturatingSubOne game.attempts_left = game.attempts_left - 1 :=
        saturatingSubOne_of_pos _ h1
      have hdec : (0 : Int) ≤ saturatingSubOne game.attempts_left ∧
          saturatingSubOne game.attempts_left ≤ game.start_attempts := by
        rw [hsat]; omega
      by_cases hwin : v = game.target
      · rw [submit_guess_win_eq cfg c u v t w game hg h0 hwin]
        have hnext : 1 ≤ next_attempts_after_win game.start_attempts
            (saturatingSubOne game.attempts_left) cfg.restart_threshold := le_max_left _ _
        constructor
        · exact startsOK_ainsert hstarts hnext
        · apply sessionsOK_ainsert hsess
          refine ⟨?_, le_refl _⟩
          show (0 : Int) ≤ next_attempts_after_win game.start_attempts
            (saturatingSubOne game.attempts_left) cfg.restart_threshold
          omega
      · by_cases hz : saturatingSubOne game.attempts_left = 0
        · rw [submit_guess_exhaust_eq cfg c u v t w game hg h0 hwin hz]
          constructor
          · show startsOK (if cfg.restart_threshold ≤ bumpedStreak c u w then
                ainsert (compositeKey c u) cfg.attempts w.app.user_start_attempts
              else w.app.user_start_attempts)
            split
            · exact startsOK_ainsert hstarts hcfg
            · exact hstarts
          · exact sessionsOK_ainsert hsess hdec
        · by_cases hlow : v < game.target
          · rw [submit_guess_low_eq cfg c u v t w game hg h0 hwin hz hlow]
            exact ⟨hstarts, sessionsOK_ainsert hsess hdec⟩
          · rw [submit_guess_high_eq cfg c u v t w game hg h0 hwin hz hlow]
            exact ⟨hstarts, sessionsOK_ainsert hsess hdec⟩

theorem reset_inv (cfg : Config) (c : Int) (f : Option Nat) (w : World) (hw : Inv w) :
    Inv (reset_all_start_attempts cfg c f w).2 := by
  obtain ⟨hstarts, hsess⟩ := hw
  unfold reset_all_start_attempts
  split
  · refine ⟨?_, hsess⟩
    intro k v h
    simp [alookup] at h
  · exact ⟨hstarts, hsess⟩

theorem step_inv (cfg : Config) (hcfg : 1 ≤ cfg.attempts) (op : Op) (w : World)
    (hw : Inv w) : Inv (step cfg op w) := by
  cases op with
  | start c u t => exact start_session_inv cfg hcfg c u t w hw
  | guess c u v t => exact submit_guess_inv cfg hcfg c u v t w hw
  | reset c f => exact reset_inv cfg c f w hw

theorem reachable_inv (cfg : Config) (hcfg : 1 ≤ cfg.attempts) (w0 w : World)
    (h0 : Inv w0) (hr : Reachable cfg w0 w) : Inv w := by
  induction hr with
  | refl => exact h0
  | tail op _ ih => exact step_inv cfg hcfg op _ ih

/-- C1: starting from the loaded state (no active sessions, persisted
starting budgets positive per the persisted-state contract, and a validated
configuration with `attempts ≥ 1`), every session stored in `by_user`
satisfies `0 ≤ attempts_left ≤ start_attempts` after every sequence of
operations (`/gioco` starts, guesses in all their branches, resets). -/
theorem C1_attempts_left_invariant (cfg : Config) (w0 w : World)
    (hcfg : 1 ≤ cfg.attempts)
    (hinit_by_user : w0.app.by_user = [])
    (hinit_starts : ∀ k v, alookup k w0.app.user_start_attempts = some v → 1 ≤ v)
    (hreach : Reachable cfg w0 w) :
    ∀ key g, alookup key w.app.by_user = some g →
      0 ≤ g.attempts_left ∧ g.attempts_left ≤ g.start_attempts := by
  have h0 : Inv w0 := by
    refine ⟨hinit_starts, ?_⟩
    intro k g h
    rw [hinit_by_user] at h
    simp [alookup] at h
  exact (reachable_inv cfg hcfg w0 w h0 hreach).2

/-- A concrete configuration used by the witnesses:
min 1, max 100, attempts 10, restart threshold 3. -/
def cfgEx : Config :=
  { min := 1, max := 100, attempts := 10, restart_threshold := 3,
    ttl_seconds := 60, bot_owner_id := some 99, reset_user_starts := ["5:7"] }

/-- A concrete freshly-loaded world used by the witnesses: empty maps,
no snapshot files on disk. -/
def w0Ex : World :=
  { app := { by_user := [], user_langs := [], chat_langs := [], seen_welcome := [],
             user_start_attempts := [], user_miss_streaks := [] },
    startsFile := none, streaksFile := none, welcomeFile := none }

theorem C1_attempts_left_invariant_witness :
    0 ≤ (GameState.mk 42 10 10).attempts_left ∧
      (GameState.mk 42 10 10).attempts_left ≤ (GameState.mk 42 10 10).start_attempts :=
  C1_attempts_left_invariant cfgEx w0Ex (step cfgEx (Op.start 5 7 42) w0Ex)
    (by decide) rfl (by intro k v h; simp [w0Ex, alookup] at h)
    (Reachable.tail (Op.start 5 7 42) Reachable.refl)
    (5, 7) (GameState.mk 42 10 10) (by decide)

/-- C2: for every `previous_start_attempts ≥ 1` and all values of the
remaining-attempts and threshold arguments, `next_attempts_after_win`
returns `max 1 (previous_start_attempts - 1)`, is independent of how many
attempts were consumed to win, and iterating it three times from 10 yields
the successive budgets 9, 8, 7. -/
theorem C2_next_attempts_after_win (p : Int) (hp : 1 ≤ p) :
    (∀ r t : Int, next_attempts_after_win p r t = max 1 (p - 1)) ∧
    (∀ r t r' t' : Int, next_attempts_after_win p r t = next_attempts_after_win p r' t') ∧
    (∀ r1 t1 r2 t2 r3 t3 : Int,
      next_attempts_after_win 10 r1 t1 = 9 ∧
      next_attempts_after_win (next_attempts_after_win 10 r1 t1) r2 t2 = 8 ∧
      next_attempts_after_win
        (next_attempts_after_win (next_attempts_after_win 10 r1 t1) r2 t2) r3 t3 = 7) := by
  refine ⟨fun r t => rfl, fun r t r' t' => rfl, fun r1 t1 r2 t2 r3 t3 => ⟨?_, ?_, ?_⟩⟩
  · show max 1 ((10 : Int) - 1) = 9
    norm_num
  · show max 1 (max 1 ((10 : Int) - 1) - 1) = 8
    norm_num
  · show max 1 (max 1 (max 1 ((10 : Int) - 1) - 1) - 1) = 7
    norm_num

theorem C2_next_attempts_after_win_witness :
    next_attempts_after_win 10 9 3 = max 1 (10 - 1) ∧
    next_attempts_after_win 10 9 3 = next_attempts_after_win 10 2 7 ∧
    (next_attempts_after_win 10 9 3 = 9 ∧
     next_attempts_after_win (next_attempts_after_win 10 9 3) 8 3 = 8 ∧
     next_attempts_after_win
       (next_attempts_after_win (next_attempts_after_win 10 9 3) 8 3) 7 3 = 7) :=
  ⟨(C2_next_attempts_after_win 10 (by norm_num)).1 9 3,
   (C2_next_attempts_after_win 10 (by norm_num)).2.1 9 3 2 7,
   (C2_next_attempts_after_win 10 (by norm_num)).2.2 9 3 8 3 7 3⟩

/-- A concrete world with one active session `(5, 7) ↦ ⟨42, 10, 10⟩`,
obtained by starting a game in the freshly-loaded world. -/
def w1Ex : World := step cfgEx (Op.start 5 7 42) w0Ex

/-- A concrete world whose only session is exhausted (`attempts_left = 0`). -/
def wZeroEx : World :=
  { app := { by_user := [((5, 7), GameState.mk 42 0 10)], user_langs := [], chat_langs := [],
             seen_welcome := [], user_start_attempts := [("5:7", 10)],
             user_miss_streaks := [] },
    startsFile := none, streaksFile := none, welcomeFile := none }

/-- C3: a winning guess on an active session with `attempts_left ≥ 1`
replaces the session wholesale with a brand-new `GameState` (fresh target,
`attempts_left` and `start_attempts` both `max 1 (old start_attempts - 1)`),
sets the user's miss-streak entry to 0, and persists both the
`user_start_attempts` and `user_miss_streaks` maps. -/
theorem C3_win_replaces_session (cfg : Config) (c : Int) (u : Nat) (v t : Int) (w : World)
    (game : GameState) (hg : alookup ((c, u) : Int × Nat) w.app.by_user = some game)
    (h1 : 1 ≤ game.attempts_left) (hv : v = game.target) :
    alookup ((c, u) : Int × Nat) (submit_guess cfg c u v t w).2.app.by_user =
      some (GameState.mk t (max 1 (game.start_attempts - 1))
        (max 1 (game.start_attempts - 1))) ∧
    alookup (compositeKey c u) (submit_guess cfg c u v t w).2.app.user_miss_streaks =
      some 0 ∧
    alookup (compositeKey c u) (submit_guess cfg c u v t w).2.app.user_start_attempts =
      some (max 1 (game.start_attempts - 1)) ∧
    (submit_guess cfg c u v t w).2.startsFile =
      some (save_user_start_attempts (submit_guess cfg c u v t w).2.app.user_start_attempts) ∧
    (submit_guess cfg c u v t w).2.streaksFile =
      some (save_user_miss_streaks (submit_guess cfg c u v t w).2.app.user_miss_streaks) ∧
    (submit_guess cfg c u v t w).1 =
      Outcome.won (max 1 (game.start_attempts - 1)) cfg.restart_threshold := by
  have h0 : ¬ game.attempts_left = 0 := by omega
  rw [submit_guess_win_eq cfg c u v t w game hg h0 hv]
  simp only [winWorld, next_attempts_after_win]
  exact ⟨alookup_ainsert_self _ _ _, alookup_ainsert_self _ _ _,
    alookup_ainsert_self _ _ _, trivial, trivial, trivial⟩

theorem C3_win_replaces_session_witness :
    alookup ((5, 7) : Int × Nat) (submit_guess cfgEx 5 7 42 13 w1Ex).2.app.by_user =
      some (GameState.mk 13 (max 1 (10 - 1)) (max 1 (10 - 1))) ∧
    alookup (compositeKey 5 7) (submit_guess cfgEx 5 7 42 13 w1Ex).2.app.user_miss_streaks =
      some 0 ∧
    alookup (compositeKey 5 7) (submit_guess cfgEx 5 7 42 13 w1Ex).2.app.user_start_attempts =
      some (max 1 (10 - 1)) ∧
    (submit_guess cfgEx 5 7 42 13 w1Ex).2.startsFile =
      some (save_user_start_attempts
        (submit_guess cfgEx 5 7 42 13 w1Ex).2.app.user_start_attempts) ∧
    (submit_guess cfgEx 5 7 42 13 w1Ex).2.streaksFile =
      some (save_user_miss_streaks
        (submit_guess cfgEx 5 7 42 13 w1Ex).2.app.user_miss_streaks) ∧
    (submit_guess cfgEx 5 7 42 13 w1Ex).1 =
      Outcome.won (max 1 (10 - 1)) cfgEx.restart_threshold :=
  C3_win_replaces_session cfgEx 5 7 42 13 w1Ex (GameState.mk 42 10 10)
    (by decide) (by decide) rfl

/-- C5: a session with `attempts_left = 0` that receives any further guess
returns the exhausted/no-op outcome and performs no mutation: the whole
state (session fields, all adaptive maps and all snapshot files) is
unchanged, so in particular `attempts_left` stays 0 and never goes
negative. -/
theorem C5_zero_attempts_no_op (cfg : Config) (c : Int) (u : Nat) (v t : Int) (w : World)
    (game : GameState) (hg : alookup ((c, u) : Int × Nat) w.app.by_user = some game)
    (h0 : game.attempts_left = 0) :
    (submit_guess cfg c u v t w).1 = Outcome.exhaustedNoOp ∧
    (submit_guess cfg c u v t w).2 = w ∧
    alookup ((c, u) : Int × Nat) (submit_guess cfg c u v t w).2.app.by_user = some game := by
  rw [submit_guess_zero_eq cfg c u v t w game hg h0]
  exact ⟨rfl, rfl, hg⟩

theorem C5_zero_attempts_no_op_witness :
    (submit_guess cfgEx 5 7 50 13 wZeroEx).1 = Outcome.exhaustedNoOp ∧
    (submit_guess cfgEx 5 7 50 13 wZeroEx).2 = wZeroEx ∧
    alookup ((5, 7) : Int × Nat) (submit_guess cfgEx 5 7 50 13 wZeroEx).2.app.by_user =
      some (GameState.mk 42 0 10) :=
  C5_zero_attempts_no_op cfgEx 5 7 50 13 wZeroEx (GameState.mk 42 0 10) (by decide) rfl

/-- C6: guessing with no active session deterministically returns the
no-active-session outcome and leaves all four maps (`by_user`,
`user_start_attempts`, `user_miss_streaks`, `seen_welcome`) exactly as
before the call. -/
theorem C6_no_session_no_op (cfg : Config) (c : Int) (u : Nat) (v t : Int) (w : World)
    (hg : alookup ((c, u) : Int × Nat) w.app.by_user = none) :
    (submit_guess cfg c u v t w).1 = Outcome.noActiveSession ∧
    (submit_guess cfg c u v t w).2.app.by_user = w.app.by_user ∧
    (submit_guess cfg c u v t w).2.app.user_start_attempts = w.app.user_start_attempts ∧
    (submit_guess cfg c u v t w).2.app.user_miss_streaks = w.app.user_miss_streaks ∧
    (submit_guess cfg c u v t w).2.app.seen_welcome = w.app.seen_welcome ∧
    (submit_guess cfg c u v t w).2 = w := by
  rw [submit_guess_none_eq cfg c u v t w hg]
  exact ⟨rfl, rfl, rfl, rfl, rfl, rfl⟩

theorem C6_no_session_no_op_witness :
    (submit_guess cfgEx 5 7 50 13 w0Ex).1 = Outcome.noActiveSession ∧
    (submit_guess cfgEx 5 7 50 13 w0Ex).2.app.by_user = w0Ex.app.by_user ∧
    (submit_guess cfgEx 5 7 50 13 w0Ex).2.app.user_start_attempts =
      w0Ex.app.user_start_attempts ∧
    (submit_guess cfgEx 5 7 50 13 w0Ex).2.app.user_miss_streaks =
      w0Ex.app.user_miss_streaks ∧
    (submit_guess cfgEx 5 7 50 13 w0Ex).2.app.seen_welcome = w0Ex.app.seen_welcome ∧
    (submit_guess cfgEx 5 7 50 13 w0Ex).2 = w0Ex :=
  C6_no_session_no_op cfgEx 5 7 50 13 w0Ex rfl

/-- C4: when a wrong guess decrements a session to `attempts_left = 0`, the
miss-streak is incremented; if the incremented streak reaches
`restart_threshold`, `user_start_attempts` for that key is set back to the
configured default `cfg.attempts` (not the ladder's floor of 1) and the
streak is reset to 0; the zero-attempt session stays in the map.  A win
with the streak below the threshold resets the streak to 0 and writes the
ladder value `max 1 (start_attempts - 1)` (not the default) into
`user_start_attempts`. -/
theorem C4_loss_streak_reset (cfg : Config) (c : Int) (u : Nat) (v t : Int) (w : World)
    (game : GameState)
    (hg : alookup ((c, u) : Int × Nat) w.app.by_user = some game) :
    (game.attempts_left = 1 → ¬ v = game.target →
      alookup ((c, u) : Int × Nat) (submit_guess cfg c u v t w).2.app.by_user =
        some (GameState.mk game.target 0 game.start_attempts) ∧
      (cfg.restart_threshold ≤ bumpedStreak c u w →
        alookup (compositeKey c u) (submit_guess cfg c u v t w).2.app.user_start_attempts =
          some cfg.attempts ∧
        alookup (compositeKey c u) (submit_guess cfg c u v t w).2.app.user_miss_streaks =
          some 0) ∧
      (¬ cfg.restart_threshold ≤ bumpedStreak c u w →
        alookup (compositeKey c u) (submit_guess cfg c u v t w).2.app.user_miss_streaks =
          some (bumpedStreak c u w) ∧
        (submit_guess cfg c u v t w).2.app.user_start_attempts =
          w.app.user_start_attempts)) ∧
    (1 ≤ game.attempts_left →
      (alookup (compositeKey c u) w.app.user_miss_streaks).getD 0 < cfg.restart_threshold →
      alookup (compositeKey c u)
          (submit_guess cfg c u game.target t w).2.app.user_miss_streaks = some 0 ∧
      alookup (compositeKey c u)
          (submit_guess cfg c u game.target t w).2.app.user_start_attempts =
        some (max 1 (game.start_attempts - 1))) := by
  constructor
  · intro h1 hv
    have h0 : ¬ game.attempts_left = 0 := by omega
    have hz : saturatingSubOne game.attempts_left = 0 := by
      rw [saturatingSubOne_of_pos _ (by omega)]
      omega
    rw [submit_guess_exhaust_eq cfg c u v t w game hg h0 hv hz]
    simp only [exhaustWorld, hz]
    refine ⟨alookup_ainsert_self _ _ _, ?_, ?_⟩
    · intro hth
      rw [if_pos hth, if_pos hth]
      exact ⟨alookup_ainsert_self _ _ _, alookup_ainsert_self _ _ _⟩
    · intro hth
      rw [if_neg hth, if_neg hth]
      exact ⟨alookup_ainsert_self _ _ _, rfl⟩
  · intro h1 _
    have h0 : ¬ game.attempts_left = 0 := by omega
    rw [submit_guess_win_eq cfg c u game.target t w game hg h0 rfl]
    simp only [winWorld, next_attempts_after_win]
    exact ⟨alookup_ainsert_self _ _ _, alookup_ainsert_self _ _ _⟩

/-- A concrete world with a one-attempt session and a miss streak of 2
(one more exhaustion reaches the configured threshold of 3). -/
def wStreak2Ex : World :=
  { app := { by_user := [((5, 7), GameState.mk 42 1 8)], user_langs := [], chat_langs := [],
             seen_welcome := [], user_start_attempts := [("5:7", 8)],
             user_miss_streaks := [("5:7", 2)] },
    startsFile := none, streaksFile := none, welcomeFile := none }

/-- A concrete world with a one-attempt session and no recorded miss streak. -/
def wStreak0Ex : World :=
  { app := { by_user := [((5, 7), GameState.mk 42 1 8)], user_langs := [], chat_langs := [],
             seen_welcome := [], user_start_attempts := [("5:7", 8)],
             user_miss_streaks := [] },
    startsFile := none, streaksFile := none, welcomeFile := none }

theorem C4_loss_streak_reset_witness :
    (alookup ((5, 7) : Int × Nat) (submit_guess cfgEx 5 7 50 13 wStreak2Ex).2.app.by_user =
      some (GameState.mk 42 0 8) ∧
     alookup (compositeKey 5 7)
        (submit_guess cfgEx 5 7 50 13 wStreak2Ex).2.app.user_start_attempts =
      some cfgEx.attempts ∧
     alookup (compositeKey 5 7)
        (submit_guess cfgEx 5 7 50 13 wStreak2Ex).2.app.user_miss_streaks = some 0) ∧
    (alookup (compositeKey 5 7)
        (submit_guess cfgEx 5 7 50 13 wStreak0Ex).2.app.user_miss_streaks =
      some (bumpedStreak 5 7 wStreak0Ex) ∧
     (submit_guess cfgEx 5 7 50 13 wStreak0Ex).2.app.user_start_attempts =
       wStreak0Ex.app.user_start_attempts) ∧
    (alookup (compositeKey 5 7)
        (submit_guess cfgEx 5 7 42 13 wStreak2Ex).2.app.user_miss_streaks = some 0 ∧
     alookup (compositeKey 5 7)
        (submit_guess cfgEx 5 7 42 13 wStreak2Ex).2.app.user_start_attempts =
      some (max 1 (8 - 1))) := by
  have h2 := C4_loss_streak_reset cfgEx 5 7 50 13 wStreak2Ex (GameState.mk 42 1 8) (by decide)
  have h0 := C4_loss_streak_reset cfgEx 5 7 50 13 wStreak0Ex (GameState.mk 42 1 8) (by decide)
  have hwin := C4_loss_streak_reset cfgEx 5 7 42 13 wStreak2Ex (GameState.mk 42 1 8) (by decide)
  obtain ⟨ha, hb, -⟩ := h2.1 rfl (by decide)
  refine ⟨⟨ha, hb (by decide)⟩, ?_, ?_⟩
  · exact (h0.1 rfl (by decide)).2.2 (by decide)
  · exact hwin.2 (by decide) (by decide)

/-- C10: a wrong guess on a session with at least two attempts left yields
the too-low (resp. too-high) outcome carrying the decremented remaining
count; only the session's `attempts_left` changes — its target and
`start_attempts`, the three adaptive maps and all three snapshot files are
untouched. -/
theorem C10_too_low_too_high_frame (cfg : Config) (c : Int) (u : Nat) (v t : Int)
    (w : World) (game : GameState)
    (hg : alookup ((c, u) : Int × Nat) w.app.by_user = some game)
    (h2 : 2 ≤ game.attempts_left) :
    (v < game.target →
      (submit_guess cfg c u v t w).1 = Outcome.tooLow (game.attempts_left - 1) ∧
      alookup ((c, u) : Int × Nat) (submit_guess cfg c u v t w).2.app.by_user =
        some (GameState.mk game.target (game.attempts_left - 1) game.start_attempts) ∧
      (submit_guess cfg c u v t w).2.app.user_start_attempts = w.app.user_start_attempts ∧
      (submit_guess cfg c u v t w).2.app.user_miss_streaks = w.app.user_miss_streaks ∧
      (submit_guess cfg c u v t w).2.app.seen_welcome = w.app.seen_welcome ∧
      (submit_guess cfg c u v t w).2.startsFile = w.startsFile ∧
      (submit_guess cfg c u v t w).2.streaksFile = w.streaksFile ∧
      (submit_guess cfg c u v t w).2.welcomeFile = w.welcomeFile) ∧
    (game.target < v →
      (submit_guess cfg c u v t w).1 = Outcome.tooHigh (game.attempts_left - 1) ∧
      alookup ((c, u) : Int × Nat) (submit_guess cfg c u v t w).2.app.by_user =
        some (GameState.mk game.target (game.attempts_left - 1) game.start_attempts) ∧
      (submit_guess cfg c u v t w).2.app.user_start_attempts = w.app.user_start_attempts ∧
      (submit_guess cfg c u v t w).2.app.user_miss_streaks = w.app.user_miss_streaks ∧
      (submit_guess cfg c u v t w).2.app.seen_welcome = w.app.seen_welcome ∧
      (submit_guess cfg c u v t w).2.startsFile = w.startsFile ∧
      (submit_guess cfg c u v t w).2.streaksFile = w.streaksFile ∧
      (submit_guess cfg c u v t w).2.welcomeFile = w.welcomeFile) := by
  have h0 : ¬ game.attempts_left = 0 := by omega
  have hsat : saturatingSubOne game.attempts_left = game.attempts_left - 1 :=
    saturatingSubOne_of_pos _ (by omega)
  have hz : ¬ saturatingSubOne game.attempts_left = 0 := by
    rw [hsat]; omega
  constructor
  · intro hlow
    have hv : ¬ v = game.target := ne_of_lt hlow
    rw [submit_guess_low_eq cfg c u v t w game hg h0 hv hz hlow]
    simp only [decWorld, hsat]
    exact ⟨trivial, alookup_ainsert_self _ _ _, trivial, trivial, trivial, trivial, trivial, trivial⟩
  · intro hhigh
    have hv : ¬ v = game.target := ne_of_gt hhigh
    have hlow : ¬ v < game.target := by omega
    rw [submit_guess_high_eq cfg c u v t w game hg h0 hv hz hlow]
    simp only [decWorld, hsat]
    exact ⟨trivial, alookup_ainsert_self _ _ _, trivial, trivial, trivial, trivial, trivial, trivial⟩

theorem C10_too_low_too_high_frame_witness :
    ((submit_guess cfgEx 5 7 30 13 w1Ex).1 = Outcome.tooLow (10 - 1) ∧
     alookup ((5, 7) : Int × Nat) (submit_guess cfgEx 5 7 30 13 w1Ex).2.app.by_user =
       some (GameState.mk 42 (10 - 1) 10) ∧
     (submit_guess cfgEx 5 7 30 13 w1Ex).2.app.user_start_attempts =
       w1Ex.app.user_start_attempts ∧
     (submit_guess cfgEx 5 7 30 13 w1Ex).2.app.user_miss_streaks =
       w1Ex.app.user_miss_streaks ∧
     (submit_guess cfgEx 5 7 30 13 w1Ex).2.app.seen_welcome = w1Ex.app.seen_welcome ∧
     (submit_guess cfgEx 5 7 30 13 w1Ex).2.startsFile = w1Ex.startsFile ∧
     (submit_guess cfgEx 5 7 30 13 w1Ex).2.streaksFile = w1Ex.streaksFile ∧
     (submit_guess cfgEx 5 7 30 13 w1Ex).2.welcomeFile = w1Ex.welcomeFile) ∧
    ((submit_guess cfgEx 5 7 50 13 w1Ex).1 = Outcome.tooHigh (10 - 1) ∧
     alookup ((5, 7) : Int × Nat) (submit_guess cfgEx 5 7 50 13 w1Ex).2.app.by_user =
       some (GameState.mk 42 (10 - 1) 10) ∧
     (submit_guess cfgEx 5 7 50 13 w1Ex).2.app.user_start_attempts =
       w1Ex.app.user_start_attempts ∧
     (submit_guess cfgEx 5 7 50 13 w1Ex).2.app.user_miss_streaks =
       w1Ex.app.user_miss_streaks ∧
     (submit_guess cfgEx 5 7 50 13 w1Ex).2.app.seen_welcome = w1Ex.app.seen_welcome ∧
     (submit_guess cfgEx 5 7 50 13 w1Ex).2.startsFile = w1Ex.startsFile ∧
     (submit_guess cfgEx 5 7 50 13 w1Ex).2.streaksFile = w1Ex.streaksFile ∧
     (submit_guess cfgEx 5 7 50 13 w1Ex).2.welcomeFile = w1Ex.welcomeFile) :=
  ⟨(C10_too_low_too_high_frame cfgEx 5 7 30 13 w1Ex (GameState.mk 42 10 10)
      (by decide) (by decide)).1 (by decide),
   (C10_too_low_too_high_frame cfgEx 5 7 50 13 w1Ex (GameState.mk 42 10 10)
      (by decide) (by decide)).2 (by decide)⟩

theorem resetAllowed_iff (cfg : Config) (c : Int) (f : Option Nat) :
    resetAllowed cfg c f = true ↔
      ∃ uid, f = some uid ∧
        (cfg.bot_owner_id = some uid ∨ compositeKey c uid ∈ cfg.reset_user_starts) := by
  cases f with
  | none => simp [resetAllowed]
  | some uid =>
    cases hb : cfg.bot_owner_id with
    | none => simp [resetAllowed, hb]
    | some o =>
      simp only [resetAllowed, hb, Bool.or_eq_true, beq_iff_eq]
      constructor
      · rintro h
        refine ⟨uid, rfl, ?_⟩
        rcases h with h | h
        · exact Or.inl (by rw [h])
        · exact Or.inr (by simpa using h)
      · rintro ⟨uid', huid, hor⟩
        obtain rfl : uid = uid' := by simpa using huid
        rcases hor with h | h
        · exact Or.inl (by simpa using h.symm)
        · exact Or.inr (by simpa using h)

/-- C9: a privileged-reset caller that is the configured owner or whose
composite `chat:user` key is in the configured allow-list gets the
`user_start_attempts` map cleared entirely with the empty map persisted
(and nothing else mutated); every other caller gets the not-authorized
outcome with the whole state unchanged. -/
theorem C9_reset_starts_authorization (cfg : Config) (c : Int) (fromUser : Option Nat)
    (w : World) :
    ((∃ uid, fromUser = some uid ∧
        (cfg.bot_owner_id = some uid ∨ compositeKey c uid ∈ cfg.reset_user_starts)) →
      (reset_all_start_attempts cfg c fromUser w).1 = Outcome.resetStartsOk ∧
      (reset_all_start_attempts cfg c fromUser w).2.app.user_start_attempts = [] ∧
      (reset_all_start_attempts cfg c fromUser w).2.startsFile =
        some (save_user_start_attempts []) ∧
      (reset_all_start_attempts cfg c fromUser w).2.app.by_user = w.app.by_user ∧
      (reset_all_start_attempts cfg c fromUser w).2.app.user_miss_streaks =
        w.app.user_miss_streaks ∧
      (reset_all_start_attempts cfg c fromUser w).2.app.seen_welcome =
        w.app.seen_welcome) ∧
    ((¬ ∃ uid, fromUser = some uid ∧
        (cfg.bot_owner_id = some uid ∨ compositeKey c uid ∈ cfg.reset_user_starts)) →
      (reset_all_start_attempts cfg c fromUser w).1 = Outcome.notAuthorized ∧
      (reset_all_start_attempts cfg c fromUser w).2 = w) := by
  constructor
  · intro h
    have hb : resetAllowed cfg c fromUser = true := (resetAllowed_iff cfg c fromUser).2 h
    simp only [reset_all_start_attempts, if_pos hb]
    exact ⟨trivial, trivial, trivial, trivial, trivial, trivial⟩
  · intro h
    have hb : ¬ resetAllowed cfg c fromUser = true := fun hc =>
      h ((resetAllowed_iff cfg c fromUser).1 hc)
    simp only [reset_all_start_attempts, if_neg hb]
    exact ⟨trivial, trivial⟩

/-- A concrete world with a nonempty persisted-start-attempts map. -/
def wStartsEx : World :=
  { app := { by_user := [], user_langs := [], chat_langs := [], seen_welcome := [],
             user_start_attempts := [("5:7", 9)], user_miss_streaks := [] },
    startsFile := none, streaksFile := none, welcomeFile := none }

theorem C9_reset_starts_authorization_witness :
    ((reset_all_start_attempts cfgEx 5 (some 7) wStartsEx).1 = Outcome.resetStartsOk ∧
     (reset_all_start_attempts cfgEx 5 (some 7) wStartsEx).2.app.user_start_attempts = [] ∧
     (reset_all_start_attempts cfgEx 5 (some 7) wStartsEx).2.startsFile =
       some (save_user_start_attempts []) ∧
     (reset_all_start_attempts cfgEx 5 (some 7) wStartsEx).2.app.by_user =
       wStartsEx.app.by_user ∧
     (reset_all_start_attempts cfgEx 5 (some 7) wStartsEx).2.app.user_miss_streaks =
       wStartsEx.app.user_miss_streaks ∧
     (reset_all_start_attempts cfgEx 5 (some 7) wStartsEx).2.app.seen_welcome =
       wStartsEx.app.seen_welcome) ∧
    ((reset_all_start_attempts cfgEx 6 (some 8) wStartsEx).1 = Outcome.notAuthorized ∧
     (reset_all_start_attempts cfgEx 6 (some 8) wStartsEx).2 = wStartsEx) :=
  ⟨(C9_reset_starts_authorization cfgEx 5 (some 7) wStartsEx).1
     ⟨7, rfl, Or.inr (by decide)⟩,
   (C9_reset_starts_authorization cfgEx 6 (some 8) wStartsEx).2
     (by
       rintro ⟨uid, huid, hor⟩
       obtain rfl : (8 : Nat) = uid := by simpa using huid
       rcases hor with h | h
       · exact absurd h (by decide)
       · exact absurd h (by decide))⟩

/-- C7: saving any of the three adaptive maps and loading it back from the
same file returns a mapping equal to the one saved (values being genuine
`i32`s, resp. `u64` timestamps, as they are in the program). -/
theorem C7_save_load_roundtrip :
    (∀ m : List (String × Int), m ≠ [] →
      (∀ p ∈ m, i32Min ≤ p.2 ∧ p.2 ≤ i32Max) →
      load_user_start_attempts (some (save_user_start_attempts m)) = m) ∧
    (∀ m : List (String × Int), m ≠ [] →
      (∀ p ∈ m, i32Min ≤ p.2 ∧ p.2 ≤ i32Max) →
      load_user_miss_streaks (some (save_user_miss_streaks m)) = m) ∧
    (∀ m : List (String × Nat), m ≠ [] →
      (∀ p ∈ m, (p.2 : Int) ≤ u64Max) →
      load_seen_welcome (some (save_seen_welcome m)) = m) := by
  refine ⟨?_, ?_, ?_⟩ <;> intro m _ h
  · simp only [load_user_start_attempts, save_user_start_attempts, jsonToI32Map,
      jsonFieldsToI32_roundtrip m h]
  · simp only [load_user_miss_streaks, save_user_miss_streaks, jsonToI32Map,
      jsonFieldsToI32_roundtrip m h]
  · simp only [load_seen_welcome, save_seen_welcome, jsonToU64Map,
      jsonFieldsToU64_roundtrip m h]

theorem C7_save_load_roundtrip_witness :
    load_user_start_attempts (some (save_user_start_attempts [("5:7", 9)])) = [("5:7", 9)] ∧
    load_user_miss_streaks (some (save_user_miss_streaks [("5:7", 2)])) = [("5:7", 2)] ∧
    load_seen_welcome (some (save_seen_welcome [("5:7", 1700000000)])) =
      [("5:7", 1700000000)] :=
  ⟨C7_save_load_roundtrip.1 [("5:7", 9)] (by decide) (by decide),
   C7_save_load_roundtrip.2.1 [("5:7", 2)] (by decide) (by decide),
   C7_save_load_roundtrip.2.2 [("5:7", 1700000000)] (by decide) (by decide)⟩

/-- C8: loading an adaptive map never surfaces an error: a missing file
yields the empty mapping, and so does any file whose contents do not parse
as an object of the expected value type. -/
theorem C8_load_never_fails :
    (load_user_start_attempts none = [] ∧ load_user_miss_streaks none = [] ∧
     load_seen_welcome none = []) ∧
    (∀ j : Json, jsonToI32Map j = none → load_user_start_attempts (some j) = []) ∧
    (∀ j : Json, jsonToI32Map j = none → load_user_miss_streaks (some j) = []) ∧
    (∀ j : Json, jsonToU64Map j = none → load_seen_welcome (some j) = []) := by
  refine ⟨⟨rfl, rfl, rfl⟩, ?_, ?_, ?_⟩ <;> intro j hj
  · simp only [load_user_start_attempts, hj]
  · simp only [load_user_miss_streaks, hj]
  · simp only [load_seen_welcome, hj]

theorem C8_load_never_fails_witness :
    load_user_start_attempts (some (Json.arr [])) = [] ∧
    load_user_miss_streaks (some (Json.str "oops")) = [] ∧
    load_seen_welcome (some (Json.obj [("5:7", Json.num (-1))])) = [] :=
  ⟨C8_load_never_fails.2.1 (Json.arr []) rfl,
   C8_load_never_fails.2.2.1 (Json.str "oops") rfl,
   C8_load_never_fails.2.2.2 (Json.obj [("5:7", Json.num (-1))]) rfl⟩

end GuessBot
